import Mathlib

/-!
Verification development for the discount-calculation service described by this
repository's documentation scripts. The repository itself ships no executable
engine code, only documentation artefacts (two plotting scripts and a summary
printer); the engine definitions below are therefore modelled from the
specification text, while the chart, summary and script data are embedded
directly from the source files.
-/

namespace DiscountService

/-- Modelled from the spec: the closed set of discount kinds
(BrandDiscount | CategoryDiscount | VoucherCode | BankOffer); the engine code
carrying this variant is missing from the repository. -/
inductive DiscountKind
  | BrandDiscount
  | CategoryDiscount
  | VoucherCode
  | BankOffer
deriving DecidableEq

/-- Modelled from the spec: one line item of an order
(product id, brand, category, unit price, quantity). -/
structure LineItem where
  productId : String
  brand : String
  category : String
  unitPrice : ℚ
  quantity : ℤ
deriving DecidableEq

/-- Modelled from the spec: one calculation request (line items, customer tier,
payment instrument, optional voucher code). -/
structure OrderContext where
  lineItems : List LineItem
  customerTier : String
  paymentBank : Option String
  voucherCode : Option String
deriving DecidableEq

/-- Modelled from the spec: a discount magnitude is either a percentage or a
fixed amount, never both. -/
inductive Magnitude
  | percentage (p : ℚ)
  | fixedAmount (a : ℚ)
deriving DecidableEq

/-- Modelled from the spec: the offer definition, with kind-specific scope
fields, magnitude, cap, minimum order amount, validity window, usage limit,
eligible tiers and excluded products. -/
structure Discount where
  kind : DiscountKind
  brand : Option String
  category : Option String
  bank : Option String
  code : Option String
  magnitude : Magnitude
  cap : Option ℚ
  minOrderAmount : Option ℚ
  validFrom : ℤ
  validTo : ℤ
  usageLimit : Option ℤ
  eligibleTiers : List String
  excludedProducts : List String
deriving DecidableEq

/-- Modelled from the spec: one entry of the audit trail — discount kind,
amount deducted, running price after this step. -/
structure AppliedDiscount where
  kind : DiscountKind
  amount : ℚ
  runningAfter : ℚ
deriving DecidableEq

/-- Modelled from the spec: original total, final total, ordered applied
discounts, total savings and savings percentage. -/
structure CalculationResult where
  originalTotal : ℚ
  finalTotal : ℚ
  appliedDiscounts : List AppliedDiscount
  savings : ℚ
  savingsPct : ℚ
deriving DecidableEq

/-- Price contribution of one line item: unit price times quantity. -/
def lineTotal (it : LineItem) : ℚ :=
  it.unitPrice * (it.quantity : ℚ)

/-- Modelled from the spec: `originalTotal` is the sum of
(unit price × quantity) across all line items. -/
def orderTotal (ctx : OrderContext) : ℚ :=
  (ctx.lineItems.map lineTotal).sum

/-- Modelled from the spec: whether a line item falls inside the kind-specific
scope of a discount (brand match for BrandDiscount, category match for
CategoryDiscount; voucher and bank offers scope the whole order). -/
def itemInScope (d : Discount) (it : LineItem) : Bool :=
  match d.kind with
  | .BrandDiscount => d.brand == some it.brand
  | .CategoryDiscount => d.category == some it.category
  | .VoucherCode => true
  | .BankOffer => true

/-- Modelled from the spec: a line item counts for a discount when it is in
scope and not among the excluded products. -/
def itemEligible (d : Discount) (it : LineItem) : Bool :=
  itemInScope d it && !(d.excludedProducts.contains it.productId)

/-- Modelled from the spec: sum of line items matching the discount's scope,
minus any excluded products. -/
def scopedSubtotal (d : Discount) (ctx : OrderContext) : ℚ :=
  ((ctx.lineItems.filter (itemEligible d)).map lineTotal).sum

/-- Modelled from the spec: the portion of the current running price
attributable to eligible line items, proportionally reduced when prior
discounts already lowered the running price. -/
def applicableSubtotal (d : Discount) (ctx : OrderContext)
    (originalTotal running : ℚ) : ℚ :=
  if originalTotal = 0 then 0
  else running * (scopedSubtotal d ctx / originalTotal)

/-- Modelled from the spec: the magnitude applied to the applicable subtotal —
percentage of the applicable subtotal, or the fixed amount. -/
def rawAmount (d : Discount) (ctx : OrderContext)
    (originalTotal running : ℚ) : ℚ :=
  match d.magnitude with
  | .percentage p => p * applicableSubtotal d ctx originalTotal running / 100
  | .fixedAmount a => a

/-- Modelled from the spec: the raw amount clamped to the cap when a cap is
present. -/
def cappedAmount (d : Discount) (ctx : OrderContext)
    (originalTotal running : ℚ) : ℚ :=
  match d.cap with
  | some c => min (rawAmount d ctx originalTotal running) c
  | none => rawAmount d ctx originalTotal running

/-- Modelled from the spec: the amount actually deducted — additionally clamped
to the remaining running price so the running price never goes below zero. -/
def appliedAmount (d : Discount) (ctx : OrderContext)
    (originalTotal running : ℚ) : ℚ :=
  min (cappedAmount d ctx originalTotal running) running

/-- Modelled from the spec: among several eligible discounts of one kind, the
one with the largest computed amount is applied (earlier listed wins ties). -/
def selectBest (ctx : OrderContext) (originalTotal running : ℚ) :
    List Discount → Option Discount
  | [] => none
  | d :: ds =>
    match selectBest ctx originalTotal running ds with
    | none => some d
    | some best =>
      if appliedAmount d ctx originalTotal running <
          appliedAmount best ctx originalTotal running
      then some best
      else some d

/-- Modelled from the spec: one stacking step — apply at most one discount of
kind `k`, deduct its amount from the running price and record the audit
entry. -/
def applyKind (ds : List Discount) (ctx : OrderContext) (originalTotal : ℚ)
    (k : DiscountKind) (running : ℚ) : ℚ × Option AppliedDiscount :=
  match selectBest ctx originalTotal running
      (ds.filter (fun d => d.kind == k)) with
  | none => (running, none)
  | some d =>
    let amt := appliedAmount d ctx originalTotal running
    (running - amt, some ⟨k, amt, running - amt⟩)

/-- Modelled from the spec: sequential compounding over the fixed tier order
BrandDiscount, CategoryDiscount, VoucherCode, BankOffer; returns the final
running price and the audit trail. -/
def stackDiscounts (ds : List Discount) (ctx : OrderContext)
    (originalTotal : ℚ) : ℚ × List AppliedDiscount :=
  let s1 := applyKind ds ctx originalTotal .BrandDiscount originalTotal
  let s2 := applyKind ds ctx originalTotal .CategoryDiscount s1.1
  let s3 := applyKind ds ctx originalTotal .VoucherCode s2.1
  let s4 := applyKind ds ctx originalTotal .BankOffer s3.1
  (s4.1, s1.2.toList ++ s2.2.toList ++ s3.2.toList ++ s4.2.toList)

/-- Modelled from the spec: the Stacking Calculator contract
`apply(eligibleDiscounts, ctx) -> CalculationResult`; the executable calculator
is missing from the repository. -/
def apply (eligibleDiscounts : List Discount) (ctx : OrderContext) :
    CalculationResult :=
  let ot := orderTotal ctx
  let s := stackDiscounts eligibleDiscounts ctx ot
  { originalTotal := ot
    finalTotal := s.1
    appliedDiscounts := s.2
    savings := ot - s.1
    savingsPct := if ot = 0 then 0 else (ot - s.1) / ot }

/-- Canonical line item from the worked example: PUMA T-shirt, unit 1000,
quantity 2. -/
def pumaTShirt : LineItem :=
  ⟨"SKU-PUMA-TSHIRT", "PUMA", "T-shirt", 1000, 2⟩

/-- Canonical order context: one PUMA T-shirt line, premium customer, ICICI
payment instrument, no voucher code. -/
def canonicalCtx : OrderContext :=
  ⟨[pumaTShirt], "Premium", some "ICICI", none⟩

/-- Brand discount from the worked example: PUMA 40 percent, no cap. -/
def brandPuma40 : Discount :=
  ⟨.BrandDiscount, some "PUMA", none, none, none, .percentage 40,
    none, none, 0, 1000000, none, [], []⟩

/-- Category discount from the worked example: T-shirt 10 percent. -/
def categoryTshirt10 : Discount :=
  ⟨.CategoryDiscount, none, some "T-shirt", none, none, .percentage 10,
    none, none, 0, 1000000, none, [], []⟩

/-- Bank offer from the worked example: ICICI 10 percent. -/
def bankIcici10 : Discount :=
  ⟨.BankOffer, none, none, some "ICICI", none, .percentage 10,
    none, none, 0, 1000000, none, [], []⟩

/-- The canonical eligible discount set of the worked example. -/
def canonicalDiscounts : List Discount :=
  [brandPuma40, categoryTshirt10, bankIcici10]

/-- The brand discount of the worked cap example: PUMA 40 percent with a cap
of 500. -/
def brandPuma40cap500 : Discount :=
  { brandPuma40 with cap := some 500 }

/-- Modelled from the spec: eligibility rule 1 — the validity window contains
the calculation instant. -/
def ruleValidityWindow (d : Discount) (now : ℤ) : Bool :=
  decide (d.validFrom ≤ now) && decide (now ≤ d.validTo)

/-- Modelled from the spec: eligibility rule 2 — the usage limit, when set,
has remaining uses greater than zero. -/
def ruleUsageLimit (d : Discount) : Bool :=
  match d.usageLimit with
  | some n => decide (0 < n)
  | none => true

/-- Modelled from the spec: eligibility rule 3 — the customer tier is in the
eligible set, or the set is empty. -/
def ruleCustomerTier (d : Discount) (ctx : OrderContext) : Bool :=
  d.eligibleTiers.isEmpty || d.eligibleTiers.contains ctx.customerTier

/-- Modelled from the spec: eligibility rule 4 — the applicable subtotal meets
the minimum order amount, when one is set. -/
def ruleMinimumAmount (d : Discount) (ctx : OrderContext) : Bool :=
  match d.minOrderAmount with
  | some m => decide (m ≤ scopedSubtotal d ctx)
  | none => true

/-- Modelled from the spec: eligibility rule 5 — at least one line item remains
eligible after excluding excluded products. -/
def ruleEligibleItemExists (d : Discount) (ctx : OrderContext) : Bool :=
  ctx.lineItems.any (itemEligible d)

/-- Modelled from the spec: the Eligibility Validator contract
`isEligible(discount, ctx) -> bool`, evaluating the five rules in the stated
fixed order with short-circuit on the first failure; the executable validator
is missing from the repository. -/
def isEligible (d : Discount) (ctx : OrderContext) (now : ℤ) : Bool :=
  ruleValidityWindow d now && ruleUsageLimit d && ruleCustomerTier d ctx &&
    ruleMinimumAmount d ctx && ruleEligibleItemExists d ctx

/-- Modelled from the spec: a stored Discount free of configuration errors —
percentage within [0, 100], fixed amount nonnegative, cap nonnegative. -/
def wellFormedDiscount (d : Discount) : Bool :=
  (match d.magnitude with
   | .percentage p => decide (0 ≤ p) && decide (p ≤ 100)
   | .fixedAmount a => decide (0 ≤ a)) &&
  (match d.cap with
   | some c => decide (0 ≤ c)
   | none => true)

/-- Modelled from the spec: a well-formed OrderContext — no negative unit
price, no negative quantity. -/
def ctxWellFormed (ctx : OrderContext) : Bool :=
  ctx.lineItems.all (fun it => decide (0 ≤ it.unitPrice) && decide (0 ≤ it.quantity))

/-- Modelled from the spec: the error taxonomy entry for a malformed
OrderContext. -/
inductive CalculationError
  | malformedContext
deriving DecidableEq

/-- Modelled from the spec: an OrderContext is malformed when a line item has a
negative unit price or negative quantity, or when the line-item list is empty
while the caller's workflow requires at least one item. -/
def contextMalformed (requireNonEmpty : Bool) (ctx : OrderContext) : Bool :=
  ctx.lineItems.any (fun it => decide (it.unitPrice < 0) || decide (it.quantity < 0)) ||
    (requireNonEmpty && ctx.lineItems.isEmpty)

/-- Modelled from the spec: the engine boundary — fail fast with a
CalculationError on a malformed OrderContext and return no partial result,
otherwise return the calculator's result. -/
def calculate (requireNonEmpty : Bool) (eligibleDiscounts : List Discount)
    (ctx : OrderContext) : Except CalculationError CalculationResult :=
  if contextMalformed requireNonEmpty ctx then .error .malformedContext
  else .ok (apply eligibleDiscounts ctx)

/-- Modelled from the spec: the Catalog's atomic check-and-decrement of a
usage counter — it fails (returns false) instead of going negative; the
executable counter code is missing from the repository. -/
def tryDecrement (remaining : ℤ) : Bool × ℤ :=
  if 0 < remaining then (true, remaining - 1) else (false, remaining)

/-- Modelled from the spec: a set of concurrent attempts on one usage counter,
serialised by atomicity into some number of sequential check-and-decrement
operations; returns how many attempts succeeded and the final counter. -/
def runDecrements : ℕ → ℤ → ℕ × ℤ
  | 0, n => (0, n)
  | Nat.succ k, n =>
    let step := tryDecrement n
    let rest := runDecrements k step.2
    ((if step.1 then 1 else 0) + rest.1, rest.2)

/-- Tier rank of a discount kind: Tier 1 holds BrandDiscount (before
CategoryDiscount), Tier 2 VoucherCode, Tier 3 BankOffer. -/
def kindRank : DiscountKind → ℕ
  | .BrandDiscount => 0
  | .CategoryDiscount => 1
  | .VoucherCode => 2
  | .BankOffer => 3

end DiscountService

namespace ChartDocs

/-- One hard-coded calculation step of the flow chart: price before, percent
off, price after. -/
structure ChartStep where
  before : ℚ
  percentOff : ℚ
  after : ℚ
deriving DecidableEq

/-- The three hard-coded calculation-step annotations of
docs/chart_script_1.py: 2000 − 40% = 1200, 1200 − 10% = 1080,
1080 − 10% = 972. -/
def chartCalculationSteps : List ChartStep :=
  [⟨2000, 40, 1200⟩, ⟨1200, 10, 1080⟩, ⟨1080, 10, 972⟩]

/-- The original total stated by the chart annotations. -/
def chartOriginalTotal : ℚ := 2000

/-- The final total stated by the chart annotations. -/
def chartFinalTotal : ℚ := 972

/-- The per-step savings figures stated by docs/script_1.py: 800, 120, 108. -/
def summaryStepSavings : List ℚ := [800, 120, 108]

/-- The total savings figure stated by docs/script_1.py. -/
def summaryTotalSavings : ℚ := 1028

/-- The savings percentage stated by docs/script_1.py: 51.4. -/
def summarySavingsPercent : ℚ := 514 / 10

end ChartDocs

namespace ScriptPy

/-- A Python value appearing in script.py: a string or a dict. -/
inductive PyValue
  | str (s : String)
  | dict (entries : List (String × PyValue))

/-- A straight-line Python statement of the kinds relevant to script.py; the
two os statements are the filesystem operations the script could have invoked
through its imported os module but never does. -/
inductive PyStmt
  | pyImport (moduleName : String)
  | assign (varName : String) (value : PyValue)
  | printStr (s : String)
  | osMakedirs (path : String)
  | osWriteFile (path : String) (content : String)

/-- Observable effects of running a straight-line Python script: the variable
environment, the stdout lines, and the filesystem paths written. -/
structure PyEffects where
  env : List (String × PyValue)
  stdout : List String
  fsWrites : List String

/-- Effect semantics of one statement: imports and assignments touch no
filesystem; print appends to stdout; the os operations record a filesystem
write. -/
def runStmt (e : PyEffects) : PyStmt → PyEffects
  | .pyImport _ => e
  | .assign n v => { e with env := (n, v) :: e.env }
  | .printStr s => { e with stdout := e.stdout ++ [s] }
  | .osMakedirs p => { e with fsWrites := e.fsWrites ++ [p] }
  | .osWriteFile p _ => { e with fsWrites := e.fsWrites ++ [p] }

/-- Run a straight-line script from the empty initial state. -/
def runScript (stmts : List PyStmt) : PyEffects :=
  stmts.foldl runStmt ⟨[], [], []⟩

/-- Whether a statement performs a filesystem operation. -/
def touchesFilesystem : PyStmt → Bool
  | .osMakedirs _ => true
  | .osWriteFile _ _ => true
  | _ => false

/-- The project_structure dictionary built by script.py, transcribed
verbatim. -/
def project_structure : PyValue :=
  .dict [("unifize-discount-service", .dict [
    ("cmd", .dict [("server", .dict [("main.go", .str "")])]),
    ("internal", .dict [
      ("models", .dict [("discount.go", .str ""), ("product.go", .str ""),
        ("cart.go", .str ""), ("customer.go", .str "")]),
      ("service", .dict [("discount_service.go", .str ""),
        ("discount_calculator.go", .str ""), ("discount_validator.go", .str "")]),
      ("repository", .dict [("discount_repository.go", .str ""),
        ("memory_discount_repository.go", .str "")]),
      ("config", .dict [("config.go", .str "")])]),
    ("pkg", .dict [("errors", .dict [("errors.go", .str "")])]),
    ("testdata", .dict [("fake_data.go", .str "")]),
    ("test", .dict [("integration", .dict [("discount_service_test.go", .str "")])]),
    ("docs", .dict [("README.md", .str ""), ("ASSUMPTIONS.md", .str ""),
      ("ARCHITECTURE.md", .str "")]),
    ("Makefile", .str ""), ("go.mod", .str ""), ("go.sum", .str ""),
    (".golangci.yml", .str ""), (".gitignore", .str "")])]

/-- The statements of script.py in order: import os, build project_structure,
print two fixed strings. -/
def script_py : List PyStmt :=
  [.pyImport "os",
   .assign "project_structure" project_structure,
   .printStr "Project structure created successfully!",
   .printStr "Let\x27s start implementing the core files..."]

end ScriptPy

namespace DiscountService

/-- C1: on the canonical order context (one PUMA T-shirt line, unit price
1000, quantity 2, ICICI payment) with the eligible set {Brand PUMA 40%,
Category T-shirt 10%, Bank ICICI 10%}, `apply` returns originalTotal 2000,
steps deducting 800 (running 1200), 120 (running 1080), 108 (running 972),
finalTotal 972, savings 1028 and savings fraction 0.514 (= 51.4%). -/
theorem canonical_scenario_result :
    apply canonicalDiscounts canonicalCtx =
    ⟨2000, 972,
      [⟨.BrandDiscount, 800, 1200⟩, ⟨.CategoryDiscount, 120, 1080⟩,
        ⟨.BankOffer, 108, 972⟩], 1028, 514 / 1000⟩ := by
  norm_num [apply, stackDiscounts, applyKind, selectBest, appliedAmount,
    cappedAmount, rawAmount, applicableSubtotal, scopedSubtotal, orderTotal,
    lineTotal, itemEligible, itemInScope, canonicalDiscounts, canonicalCtx,
    pumaTShirt, brandPuma40, categoryTshirt10, bankIcici10, min_def]

/-- C4: with an empty eligible discount set, `apply` leaves the total
unchanged, records no applied discounts, and reports zero savings. -/
theorem apply_no_discounts (ctx : OrderContext) :
    (apply [] ctx).finalTotal = (apply [] ctx).originalTotal ∧
    (apply [] ctx).appliedDiscounts = [] ∧
    (apply [] ctx).savings = 0 := by
  simp [apply, stackDiscounts, applyKind, selectBest]

/-- C6: a discount whose usage limit is zero is never eligible, for every
order context and every calculation instant; `isEligible` is a pure Bool
function defined as the short-circuit conjunction of the five rules in the
stated fixed order, so it returns false without error. -/
theorem isEligible_usage_limit_zero (d : Discount) (ctx : OrderContext)
    (now : ℤ) (h : d.usageLimit = some 0) :
    isEligible d ctx now = false := by
  unfold isEligible ruleUsageLimit
  rw [h]
  simp

/-- Witness for C6: a concrete discount with usage limit 0 is not eligible on
the canonical context. -/
theorem isEligible_usage_limit_zero_witness :
    ({ brandPuma40 with usageLimit := some 0 } : Discount).usageLimit = some 0 ∧
    isEligible { brandPuma40 with usageLimit := some 0 } canonicalCtx 5 = false :=
  ⟨rfl, isEligible_usage_limit_zero _ _ _ rfl⟩

/-- C7: `calculate` returns a CalculationError (and no partial result) exactly
on a malformed OrderContext — a negative unit price or quantity, or an empty
line-item list when the caller requires one — and otherwise returns the
calculator's normal result, even when no discount is eligible. -/
theorem calculate_error_policy (b : Bool) (ds : List Discount)
    (ctx : OrderContext) :
    (contextMalformed b ctx = true →
      calculate b ds ctx = .error .malformedContext) ∧
    (contextMalformed b ctx = false →
      calculate b ds ctx = .ok (apply ds ctx)) := by
  constructor <;> intro h <;> simp [calculate, h]

/-- A malformed order context: one line item with a negative unit price. -/
def badCtx : OrderContext :=
  ⟨[⟨"SKU-BAD", "B", "C", -5, 1⟩], "Premium", none, none⟩

/-- Witness for C7: the negative-price context yields the error, and the
well-formed canonical context yields the normal result. -/
theorem calculate_error_policy_witness :
    contextMalformed true badCtx = true ∧
    calculate true [] badCtx = .error .malformedContext ∧
    contextMalformed true canonicalCtx = false ∧
    calculate true canonicalDiscounts canonicalCtx =
      .ok (apply canonicalDiscounts canonicalCtx) := by
  have h1 : contextMalformed true badCtx = true := by
    norm_num [contextMalformed, badCtx]
  have h2 : contextMalformed true canonicalCtx = false := by
    norm_num [contextMalformed, canonicalCtx, pumaTShirt]
  exact ⟨h1, (calculate_error_policy true [] badCtx).1 h1, h2,
    (calculate_error_policy true canonicalDiscounts canonicalCtx).2 h2⟩

/-- Starting from an exhausted counter, every serialised attempt fails and the
counter stays at zero. -/
theorem runDecrements_exhausted (k : ℕ) : runDecrements k 0 = (0, 0) := by
  induction k with
  | zero => rfl
  | succ k ih => simp [runDecrements, tryDecrement, ih]

/-- C8: for a usage limit of 1, any nonempty set of concurrent attempts —
serialised by the atomic check-and-decrement — produces exactly one successful
application, and the counter ends at 0, never negative. -/
theorem usage_limit_one_single_success (k : ℕ) (h : 1 ≤ k) :
    runDecrements k 1 = (1, 0) := by
  cases k with
  | zero => omega
  | succ k => simp [runDecrements, tryDecrement, runDecrements_exhausted]

/-- Witness for C8: three serialised attempts on a usage limit of 1 yield
exactly one success. -/
theorem usage_limit_one_single_success_witness :
    1 ≤ 3 ∧ runDecrements 3 1 = (1, 0) :=
  ⟨by decide, usage_limit_one_single_success 3 (by decide)⟩

/-- Every audit entry produced by a stacking step carries the kind of that
step. -/
theorem applyKind_kind (ds : List Discount) (ctx : OrderContext) (ot : ℚ)
    (k : DiscountKind) (r : ℚ) :
    ∀ e ∈ (applyKind ds ctx ot k r).2, e.kind = k := by
  intro e he
  unfold applyKind at he
  cases hsel : selectBest ctx ot r (ds.filter fun d => d.kind == k) with
  | none => rw [hsel] at he; simp at he
  | some d =>
    rw [hsel] at he
    simp at he
    rw [← he]

/-- Pairwise property of the concatenation of four optional singletons, given
the six cross conditions. -/
theorem pairwise_append_four {α : Type} {R : α → α → Prop}
    (o1 o2 o3 o4 : Option α)
    (h12 : ∀ a ∈ o1, ∀ b ∈ o2, R a b)
    (h13 : ∀ a ∈ o1, ∀ b ∈ o3, R a b)
    (h14 : ∀ a ∈ o1, ∀ b ∈ o4, R a b)
    (h23 : ∀ a ∈ o2, ∀ b ∈ o3, R a b)
    (h24 : ∀ a ∈ o2, ∀ b ∈ o4, R a b)
    (h34 : ∀ a ∈ o3, ∀ b ∈ o4, R a b) :
    List.Pairwise R (o1.toList ++ o2.toList ++ o3.toList ++ o4.toList) := by
  cases o1 <;> cases o2 <;> cases o3 <;> cases o4 <;>
    simp_all [List.pairwise_cons]

/-- C2: for every eligible discount set and every context, the applied
discounts appear in strictly increasing tier-rank order: BrandDiscount before
CategoryDiscount (Tier 1), both before VoucherCode (Tier 2), and VoucherCode
before BankOffer (Tier 3). -/
theorem apply_tier_ordered (ds : List Discount) (ctx : OrderContext) :
    List.Pairwise (fun a b : AppliedDiscount => kindRank a.kind < kindRank b.kind)
      (apply ds ctx).appliedDiscounts := by
  show List.Pairwise _ (stackDiscounts ds ctx (orderTotal ctx)).2
  unfold stackDiscounts
  dsimp only
  refine pairwise_append_four _ _ _ _ ?_ ?_ ?_ ?_ ?_ ?_ <;>
  · intro a ha b hb
    rw [applyKind_kind _ _ _ _ _ a ha, applyKind_kind _ _ _ _ _ b hb]
    decide

/-- The best-amount selection only ever returns a member of its input list. -/
theorem selectBest_mem {ctx : OrderContext} {ot r : ℚ} :
    ∀ {l : List Discount} {d : Discount},
      selectBest ctx ot r l = some d → d ∈ l := by
  intro l
  induction l with
  | nil => intro d h; simp [selectBest] at h
  | cons a t ih =>
    intro d h
    simp only [selectBest] at h
    cases hsel : selectBest ctx ot r t with
    | none =>
      rw [hsel] at h
      simp at h
      simp [h]
    | some best =>
      rw [hsel] at h
      dsimp only at h
      by_cases hlt : appliedAmount a ctx ot r < appliedAmount best ctx ot r
      · rw [if_pos hlt] at h
        simp at h
        simp [List.mem_cons]
        right
        rw [← h]
        exact ih hsel
      · rw [if_neg hlt] at h
        simp at h
        simp [h]

/-- A line item with nonnegative unit price and quantity contributes a
nonnegative line total. -/
theorem lineTotal_nonneg {it : LineItem} (h1 : 0 ≤ it.unitPrice)
    (h2 : 0 ≤ it.quantity) : 0 ≤ lineTotal it := by
  have : (0 : ℚ) ≤ (it.quantity : ℚ) := by exact_mod_cast h2
  exact mul_nonneg h1 this

/-- A well-formed context has a nonnegative original total. -/
theorem orderTotal_nonneg {ctx : OrderContext}
    (h : ctxWellFormed ctx = true) : 0 ≤ orderTotal ctx := by
  unfold orderTotal
  apply List.sum_nonneg
  intro x hx
  simp only [List.mem_map] at hx
  obtain ⟨it, hit, rfl⟩ := hx
  unfold ctxWellFormed at h
  rw [List.all_eq_true] at h
  have hh := h it hit
  simp at hh
  exact lineTotal_nonneg hh.1 hh.2

/-- A well-formed context gives every discount a nonnegative scoped
subtotal. -/
theorem scopedSubtotal_nonneg {d : Discount} {ctx : OrderContext}
    (h : ctxWellFormed ctx = true) : 0 ≤ scopedSubtotal d ctx := by
  unfold scopedSubtotal
  apply List.sum_nonneg
  intro x hx
  simp only [List.mem_map] at hx
  obtain ⟨it, hit, rfl⟩ := hx
  unfold ctxWellFormed at h
  rw [List.all_eq_true] at h
  have hh := h it (List.mem_of_mem_filter hit)
  simp at hh
  exact lineTotal_nonneg hh.1 hh.2

/-- On a well-formed context, a well-formed discount deducts an amount between
zero and the running price. -/
theorem appliedAmount_bounds {d : Discount} {ctx : OrderContext} {ot r : ℚ}
    (hctx : ctxWellFormed ctx = true) (hd : wellFormedDiscount d = true)
    (hot : 0 ≤ ot) (hr : 0 ≤ r) :
    0 ≤ appliedAmount d ctx ot r ∧ appliedAmount d ctx ot r ≤ r := by
  unfold wellFormedDiscount at hd
  rw [Bool.and_eq_true] at hd
  have hsub : 0 ≤ applicableSubtotal d ctx ot r := by
    unfold applicableSubtotal
    split
    · exact le_refl 0
    · exact mul_nonneg hr (div_nonneg (scopedSubtotal_nonneg hctx) hot)
  have hraw : 0 ≤ rawAmount d ctx ot r := by
    unfold rawAmount
    cases hm : d.magnitude with
    | percentage p =>
      rw [hm] at hd
      simp at hd
      exact div_nonneg (mul_nonneg hd.1.1 hsub) (by norm_num)
    | fixedAmount a =>
      rw [hm] at hd
      simp at hd
      exact hd.1
  have hcapped : 0 ≤ cappedAmount d ctx ot r := by
    unfold cappedAmount
    cases hc : d.cap with
    | none => exact hraw
    | some c =>
      rw [hc] at hd
      simp at hd
      exact le_min hraw hd.2
  exact ⟨le_min hcapped hr, min_le_right _ _⟩

/-- One stacking step keeps the running price between zero and its previous
value. -/
theorem applyKind_run_bounds (ds : List Discount) (ctx : OrderContext)
    (ot : ℚ) (k : DiscountKind) (r : ℚ)
    (hctx : ctxWellFormed ctx = true)
    (hds : ∀ d ∈ ds, wellFormedDiscount d = true)
    (hot : 0 ≤ ot) (hr : 0 ≤ r) :
    0 ≤ (applyKind ds ctx ot k r).1 ∧ (applyKind ds ctx ot k r).1 ≤ r := by
  unfold applyKind
  cases hsel : selectBest ctx ot r (ds.filter fun d => d.kind == k) with
  | none => simp [hr]
  | some d =>
    have hd : wellFormedDiscount d = true :=
      hds d (List.mem_of_mem_filter (selectBest_mem hsel))
    obtain ⟨h0, h1⟩ := appliedAmount_bounds hctx hd hot hr
    simp only
    constructor
    · linarith
    · linarith

/-- C3: on a well-formed context with well-formed eligible discounts, the
final total returned by `apply` lies in [0, originalTotal]; moreover any
discount amount that would drive the running price below zero is clamped to
exactly the remaining running price. -/
theorem apply_finalTotal_bounds (ds : List Discount) (ctx : OrderContext)
    (hctx : ctxWellFormed ctx = true)
    (hds : ∀ d ∈ ds, wellFormedDiscount d = true) :
    (0 ≤ (apply ds ctx).finalTotal ∧
      (apply ds ctx).finalTotal ≤ (apply ds ctx).originalTotal) ∧
    (∀ d r, r ≤ cappedAmount d ctx (orderTotal ctx) r →
      appliedAmount d ctx (orderTotal ctx) r = r) := by
  constructor
  · have hot : 0 ≤ orderTotal ctx := orderTotal_nonneg hctx
    show 0 ≤ (stackDiscounts ds ctx (orderTotal ctx)).1 ∧
      (stackDiscounts ds ctx (orderTotal ctx)).1 ≤ orderTotal ctx
    unfold stackDiscounts
    dsimp only
    obtain ⟨h1a, h1b⟩ := applyKind_run_bounds ds ctx (orderTotal ctx)
      .BrandDiscount (orderTotal ctx) hctx hds hot hot
    obtain ⟨h2a, h2b⟩ := applyKind_run_bounds ds ctx (orderTotal ctx)
      .CategoryDiscount _ hctx hds hot h1a
    obtain ⟨h3a, h3b⟩ := applyKind_run_bounds ds ctx (orderTotal ctx)
      .VoucherCode _ hctx hds hot h2a
    obtain ⟨h4a, h4b⟩ := applyKind_run_bounds ds ctx (orderTotal ctx)
      .BankOffer _ hctx hds hot h3a
    exact ⟨h4a, le_trans h4b (le_trans h3b (le_trans h2b h1b))⟩
  · intro d r hge
    unfold appliedAmount
    exact min_eq_right hge

/-- Witness for C3: the canonical inputs are well formed and the final total
972 indeed lies in [0, 2000]. -/
theorem apply_finalTotal_bounds_witness :
    ctxWellFormed canonicalCtx = true ∧
    0 ≤ (apply canonicalDiscounts canonicalCtx).finalTotal ∧
    (apply canonicalDiscounts canonicalCtx).finalTotal ≤
      (apply canonicalDiscounts canonicalCtx).originalTotal := by
  have hctx : ctxWellFormed canonicalCtx = true := by
    norm_num [ctxWellFormed, canonicalCtx, pumaTShirt]
  have hds : ∀ d ∈ canonicalDiscounts, wellFormedDiscount d = true := by
    intro d hd
    fin_cases hd <;>
      norm_num [wellFormedDiscount, brandPuma40, categoryTshirt10, bankIcici10]
  exact ⟨hctx, (apply_finalTotal_bounds canonicalDiscounts canonicalCtx hctx hds).1.1,
    (apply_finalTotal_bounds canonicalDiscounts canonicalCtx hctx hds).1.2⟩

/-- C5: when a discount's cap is lower than its computed percentage amount
(and within the running price), the stacking step deducts exactly the cap. -/
theorem applyKind_cap_clamps (d : Discount) (ctx : OrderContext)
    (ot r c : ℚ) (k : DiscountKind)
    (hk : d.kind = k) (hcap : d.cap = some c)
    (hlt : c < rawAmount d ctx ot r) (hcr : c ≤ r) :
    applyKind [d] ctx ot k r = (r - c, some ⟨k, c, r - c⟩) := by
  have hfilter : List.filter (fun x => x.kind == k) [d] = [d] := by
    simp [hk]
  have hsel : selectBest ctx ot r [d] = some d := by
    simp [selectBest]
  have hcapped : cappedAmount d ctx ot r = c := by
    unfold cappedAmount
    rw [hcap]
    exact min_eq_right hlt.le
  have hamt : appliedAmount d ctx ot r = c := by
    unfold appliedAmount
    rw [hcapped]
    exact min_eq_left hcr
  unfold applyKind
  rw [hfilter, hsel]
  simp [hamt]

/-- Witness for C5: PUMA 40% of an applicable subtotal of 2000 computes 800,
exceeding the cap of 500, and the step deducts exactly 500. -/
theorem applyKind_cap_clamps_witness :
    brandPuma40cap500.kind = .BrandDiscount ∧
    brandPuma40cap500.cap = some 500 ∧
    (500 : ℚ) < rawAmount brandPuma40cap500 canonicalCtx 2000 2000 ∧
    (500 : ℚ) ≤ 2000 ∧
    applyKind [brandPuma40cap500] canonicalCtx 2000 .BrandDiscount 2000 =
      (1500, some ⟨.BrandDiscount, 500, 1500⟩) := by
  have hlt : (500 : ℚ) < rawAmount brandPuma40cap500 canonicalCtx 2000 2000 := by
    norm_num [rawAmount, applicableSubtotal, scopedSubtotal, lineTotal,
      itemEligible, itemInScope, brandPuma40cap500, brandPuma40,
      canonicalCtx, pumaTShirt]
  have h := applyKind_cap_clamps brandPuma40cap500 canonicalCtx 2000 2000 500
    .BrandDiscount rfl rfl hlt (by norm_num)
  refine ⟨rfl, rfl, hlt, by norm_num, ?_⟩
  rw [h]
  norm_num

end DiscountService

namespace ChartDocs

/-- C9: the hard-coded calculation steps of the flow chart compound
sequentially on the running total (each after-price is the before-price less
its stated percentage, and consecutive steps chain), the per-step deductions
match the summary figures 800, 120, 108, the stated total savings 1028 equals
2000 − 972, and 51.4 is exactly that savings ratio as a percentage rounded to
one decimal place. -/
theorem chart_steps_consistent :
    (∀ s ∈ chartCalculationSteps,
      s.after = s.before - s.before * s.percentOff / 100) ∧
    List.Chain' (fun a b => a.after = b.before) chartCalculationSteps ∧
    chartCalculationSteps.map (fun s => s.before - s.after) =
      summaryStepSavings ∧
    summaryTotalSavings = chartOriginalTotal - chartFinalTotal ∧
    ((⌊(chartOriginalTotal - chartFinalTotal) / chartOriginalTotal * 100 * 10
        + 1 / 2⌋ : ℚ) / 10 = summarySavingsPercent) := by
  have hfl : ⌊(chartOriginalTotal - chartFinalTotal) / chartOriginalTotal *
      100 * 10 + 1 / 2⌋ = (514 : ℤ) := by
    rw [Int.floor_eq_iff]
    norm_num [chartOriginalTotal, chartFinalTotal]
  refine ⟨?_, ?_, ?_, ?_, ?_⟩
  · intro s hs
    fin_cases hs <;> norm_num [chartCalculationSteps]
  · norm_num [chartCalculationSteps, List.chain'_cons]
  · norm_num [chartCalculationSteps, summaryStepSavings]
  · norm_num [summaryTotalSavings, chartOriginalTotal, chartFinalTotal]
  · rw [hfl]
    norm_num [summarySavingsPercent]

end ChartDocs

namespace ScriptPy

/-- C10: running script.py writes nothing to the filesystem — no statement is
an os filesystem operation, so the imported os module is never used — its
environment ends holding exactly the project_structure dictionary, and its
only observable output is the two fixed printed strings. -/
theorem script_effects :
    (runScript script_py).fsWrites = [] ∧
    script_py.all (fun s => !touchesFilesystem s) = true ∧
    (runScript script_py).stdout =
      ["Project structure created successfully!",
       "Let\x27s start implementing the core files..."] ∧
    (runScript script_py).env = [("project_structure", project_structure)] :=
  ⟨rfl, rfl, rfl, rfl⟩

end ScriptPy
